import Mathlib

/-!
Verification of the buildchain build pipeline (src/build.rs).

The pipeline is embedded as trace-producing functions over an oracle: a
`World` decides, for each operation in emission order, whether the backend
call succeeds, and supplies the data results of the external collaborators
(source download time, config file text, serde parsing, artifact tree).
Each pipeline function returns the list of operations it attempted (its
trace) together with its result.  The n-th event of a trace was attempted
with index n, so `World.ok n e` is the success of that very attempt.
-/

/-- Filesystem paths, as lists of segments; `FsPath.join` is Rust `FsPath::join`. -/
abbrev FsPath := List String

/-- Mirrors `lxd::Location`: local LXD or a named remote LXD server. -/
inductive Location where
  | Local : Location
  | Remote : String → Location
deriving DecidableEq, Repr

/-- Mirrors the `Config` struct of the crate root (used by `build.rs`):
name, base image, and the prepare/build/publish command lists. -/
structure Config where
  name : String
  base : String
  prepare : List (List String)
  build : List (List String)
  publish : List (List String)
deriving DecidableEq, Repr

/-- Operations attempted by the pipeline, in the order they are issued.
An event in a trace means the operation was attempted; whether it
succeeded is `World.ok` at the event's position. -/
inductive Event where
  | mkTempDir : FsPath → Event
  | download : String → String → FsPath → Event
  | openConfig : FsPath → Event
  | readConfig : FsPath → Event
  | containerNew : Location → String → String → Event
  | push : FsPath → String → Bool → Event
  | exec : List String → Event
  | snapshot : String → Event
  | publishImage : String → Event
  | pull : String → FsPath → Bool → Event
  | genManifest : Nat → FsPath → Event
  | createFile : FsPath → Event
  | writeFile : FsPath → String → Event
  | syncFile : FsPath → Event
  | rename : FsPath → FsPath → Event
  | deleteTemp : FsPath → Event
deriving DecidableEq, Repr

/-- The external world: success of each attempted operation (indexed by
position in the global trace), the backend image-existence query, the two
SHA-384 digests (of a string, for the environment identity, and of file
bytes, for the manifest; the crate's `Sha384` type is not under `src/`,
so the digest is an arbitrary function of the hashed bytes), and the data
results of the collaborators. -/
structure World where
  ok : Nat → Event → Bool
  imageExists : Location → String → Bool
  shaStr : String → String
  shaBytes : List Nat → String
  downloadTime : Nat
  configText : String
  parse : String → Option Config
  artifactsTree : List (String × List Nat)

/-- Hex digit, used by the JSON escaper for control characters. -/
def hexDigit (n : Nat) : String :=
  if n = 0 then "0" else if n = 1 then "1" else if n = 2 then "2"
  else if n = 3 then "3" else if n = 4 then "4" else if n = 5 then "5"
  else if n = 6 then "6" else if n = 7 then "7" else if n = 8 then "8"
  else if n = 9 then "9" else if n = 10 then "a" else if n = 11 then "b"
  else if n = 12 then "c" else if n = 13 then "d" else if n = 14 then "e"
  else "f"

/-- JSON string escaping as `serde_json` performs it: quote and backslash
are escaped, control characters use the short forms or a `\u00XX` escape. -/
def jsonEscapeChar (c : Char) : String :=
  if c = '"' then "\\\""
  else if c = '\\' then "\\\\"
  else if c = Char.ofNat 8 then "\\b"
  else if c = Char.ofNat 9 then "\\t"
  else if c = Char.ofNat 10 then "\\n"
  else if c = Char.ofNat 12 then "\\f"
  else if c = Char.ofNat 13 then "\\r"
  else if c.toNat < 32 then "\\u00" ++ hexDigit (c.toNat / 16) ++ hexDigit (c.toNat % 16)
  else String.singleton c

/-- A JSON string literal for `s`. -/
def jsonStr (s : String) : String :=
  "\"" ++ String.join (s.toList.map jsonEscapeChar) ++ "\""

/-- A JSON array literal from already-serialized elements. -/
def jsonArr (elems : List String) : String :=
  "[" ++ String.intercalate "," elems ++ "]"

/-- Mirrors `BuildEnvironmentConfig` of `build.rs`: the subset of the
config that determines the build environment. -/
structure BuildEnvironmentConfig where
  base : String
  prepare : List (List String)
deriving DecidableEq, Repr

/-- The `serde_json::to_string` serialization of a `BuildEnvironmentConfig`:
fields in declaration order, `base` then `prepare`. -/
def buildEnvJson (b : BuildEnvironmentConfig) : String :=
  "\x7b\"base\":" ++ jsonStr b.base ++ ",\"prepare\":" ++
    jsonArr (b.prepare.map (fun cmd => jsonArr (cmd.map jsonStr))) ++ "\x7d"

/-- The environment identity digest computed by `prepare` in `build.rs`:
the SHA-384 digest of the serialization of `\x7bbase, prepare\x7d` taken from
the config.  (`build.rs` serializes the `Sha384` value back to a JSON
string and trims the quotes, recovering the digest string itself.) -/
def buildEnvDigest (shaStr : String → String) (config : Config) : String :=
  shaStr (buildEnvJson { base := config.base, prepare := config.prepare })

/-- The derived environment image name of `prepare` in `build.rs`:
`buildchain-\x7bname\x7d-\x7bdigest\x7d`. -/
def buildImageName (shaStr : String → String) (config : Config) : String :=
  "buildchain-" ++ config.name ++ "-" ++ buildEnvDigest shaStr config

/-- A `for command in cmds { container.exec(&args)? }` loop starting at
trace index `n`: executes the commands in order, stopping at the first
failure.  Returns the trace of attempted `exec`s and whether all
succeeded. -/
def execCmds (w : World) (n : Nat) (cmds : List (List String)) :
    List Event × Bool :=
  match cmds with
  | [] => ([], true)
  | c :: rest =>
      if w.ok n (Event.exec c) then
        let r := execCmds w (n + 1) rest
        (Event.exec c :: r.1, r.2)
      else
        ([Event.exec c], false)

/-- Mirrors `prepare` of `build.rs` (lines 20-61), starting at trace index
`n`: derive the image name; if the image exists at the location, return it
with no side effects; otherwise create a container from `config.base`, run
the `config.prepare` commands in order, snapshot, and publish under the
derived name.  `none` is the propagated `io::Result` error. -/
def prepare (w : World) (loc : Location) (config : Config) (n : Nat) :
    List Event × Option String :=
  let img := buildImageName w.shaStr config
  if w.imageExists loc img then
    ([], some img)
  else
    let e0 := Event.containerNew loc img config.base
    if w.ok n e0 then
      let r := execCmds w (n + 1) config.prepare
      if r.2 then
        let n2 := n + 1 + r.1.length
        let e1 := Event.snapshot img
        if w.ok n2 e1 then
          let e2 := Event.publishImage img
          if w.ok (n2 + 1) e2 then
            (e0 :: r.1 ++ [e1, e2], some img)
          else
            (e0 :: r.1 ++ [e1, e2], none)
        else
          (e0 :: r.1 ++ [e1], none)
      else
        (e0 :: r.1, none)
    else
      ([e0], none)

/-- The run-scoped container name of `run` in `build.rs`:
`buildchain-\x7bname\x7d-\x7bsource_time\x7d`. -/
def runContainerName (config : Config) (sourceTime : Nat) : String :=
  "buildchain-" ++ config.name ++ "-" ++ toString sourceTime

/-- Mirrors `run` of `build.rs` (lines 64-103), starting at trace index
`n`: create a container from the environment image, push the source tree
to `/root`, run the build commands, create `/root/artifacts` with `mkdir`,
run the publish commands, and pull `/root/artifacts` into `tempPath`.
`false` is the propagated `io::Result` error. -/
def run (w : World) (loc : Location) (config : Config) (buildImage : String)
    (sourceTime : Nat) (sourcePath : FsPath) (tempPath : FsPath) (n : Nat) :
    List Event × Bool :=
  let e0 := Event.containerNew loc (runContainerName config sourceTime) buildImage
  if w.ok n e0 then
    let e1 := Event.push sourcePath "/root" true
    if w.ok (n + 1) e1 then
      let rb := execCmds w (n + 2) config.build
      if rb.2 then
        let n2 := n + 2 + rb.1.length
        let e2 := Event.exec ["mkdir", "/root/artifacts"]
        if w.ok n2 e2 then
          let rp := execCmds w (n2 + 1) config.publish
          if rp.2 then
            let n3 := n2 + 1 + rp.1.length
            let e3 := Event.pull "/root/artifacts" tempPath true
            if w.ok n3 e3 then
              (e0 :: e1 :: rb.1 ++ e2 :: rp.1 ++ [e3], true)
            else
              (e0 :: e1 :: rb.1 ++ e2 :: rp.1 ++ [e3], false)
          else
            (e0 :: e1 :: rb.1 ++ e2 :: rp.1, false)
        else
          (e0 :: e1 :: rb.1 ++ [e2], false)
      else
        (e0 :: e1 :: rb.1, false)
    else
      ([e0, e1], false)
  else
    ([e0], false)

/-- Comparison of manifest entries by their relative path. -/
def keyLE (a b : String × String) : Prop := a.1 ≤ b.1

instance : DecidableRel keyLE := fun a b => inferInstanceAs (Decidable (a.1 ≤ b.1))

instance : IsTotal (String × String) keyLE := ⟨fun a b => le_total a.1 b.1⟩

instance : IsTrans (String × String) keyLE := ⟨fun _ _ _ h1 h2 => le_trans h1 h2⟩

/-- Mirrors the crate's `Manifest`: the source timestamp and the mapping
from relative artifact path to content digest, kept in its canonical
(key-sorted) order. -/
structure Manifest where
  time : Nat
  files : List (String × String)
deriving DecidableEq, Repr

/-- Modelled from the spec: `Manifest::new` of the crate root is not under
`src/`; per §4.4 it walks the artifact tree in a deterministic
(lexicographic by relative path) order over the regular files, computes
each file's content digest with the fixed SHA-384 algorithm, and records
`\x7brelative_path: hash\x7d` together with `source_time`.  The on-disk tree is
given as an association list in its on-disk enumeration order. -/
def Manifest.new (shaBytes : List Nat → String) (time : Nat)
    (tree : List (String × List Nat)) : Manifest :=
  { time := time
    files := List.insertionSort keyLE (tree.map (fun f => (f.1, shaBytes f.2))) }

/-- Modelled from the spec: the JSON serialization of a `Manifest` (the
crate derives it outside `src/`); per §6 the format is
`\x7btime: integer, files: \x7brelative_path: hex-digest, ...\x7d\x7d`, with the
fields in declaration order and the file map in the manifest's canonical
order. -/
def serializeManifest (m : Manifest) : String :=
  "\x7b\"time\":" ++ toString m.time ++ ",\"files\":\x7b" ++
    String.intercalate ","
      (m.files.map (fun f => jsonStr f.1 ++ ":" ++ jsonStr f.2)) ++
    "\x7d\x7d"

/-- Mirrors `BuildArguments` of `build.rs`.  The output path is a
filesystem path value here. -/
structure BuildArguments where
  config_path : String
  output_path : FsPath
  remote_opt : Option String
  source_url : String
  source_kind : String

/-- Which `Err(String)` of `build` in `build.rs` was returned, by the
failing stage. -/
inductive BuildError where
  | tempDir
  | download
  | openConfig
  | readConfig
  | parseConfig
  | prepareStage
  | runStage
  | manifestGen
  | createManifest
  | writeManifest
  | syncManifest
  | renameStage
deriving DecidableEq, Repr

/-- The temporary workspace chosen by `TempDir::new("buildchain")` for this
build, as supplied by the operating system. -/
structure TempChoice where
  tempPath : FsPath

/-- The execution location picked by `build` from `remote_opt`: a named
remote LXD server when given, local LXD otherwise. -/
def locOf (remote_opt : Option String) : Location :=
  match remote_opt with
  | some r => Location.Remote r
  | none => Location.Local

/-- Mirrors `build` of `build.rs` (lines 113-213): create the temporary
workspace, download the source into `temp/source`, open/read/parse the
config at `temp/source/\x7bconfig_path\x7d`, pick the location from
`remote_opt`, `prepare`, `run`, generate the manifest over
`temp/artifacts`, write `temp/manifest.json`, sync it, and finally rename
the workspace onto the output path.  On every error path before the final
`into_path`, dropping the `TempDir` deletes the workspace
(`Event.deleteTemp`); the rename-failure path runs after `into_path`, so
no deletion happens there. -/
def build (w : World) (t : TempChoice) (a : BuildArguments) :
    List Event × Except BuildError Unit :=
  let tp := t.tempPath
  let e0 := Event.mkTempDir tp
  if w.ok 0 e0 then
    let sourcePath := tp ++ ["source"]
    let e1 := Event.download a.source_kind a.source_url sourcePath
    if w.ok 1 e1 then
      let configFile := sourcePath ++ [a.config_path]
      let e2 := Event.openConfig configFile
      if w.ok 2 e2 then
        let e3 := Event.readConfig configFile
        if w.ok 3 e3 then
          match w.parse w.configText with
          | some config =>
            let loc := locOf a.remote_opt
            let rp := prepare w loc config 4
            match rp.2 with
            | some buildImage =>
              let n1 := 4 + rp.1.length
              let rr := run w loc config buildImage w.downloadTime sourcePath tp n1
              if rr.2 then
                let n2 := n1 + rr.1.length
                let em := Event.genManifest w.downloadTime (tp ++ ["artifacts"])
                if w.ok n2 em then
                  let manifest := Manifest.new w.shaBytes w.downloadTime w.artifactsTree
                  let ec := Event.createFile (tp ++ ["manifest.json"])
                  if w.ok (n2 + 1) ec then
                    let ew := Event.writeFile (tp ++ ["manifest.json"])
                      (serializeManifest manifest)
                    if w.ok (n2 + 2) ew then
                      let es := Event.syncFile (tp ++ ["manifest.json"])
                      if w.ok (n2 + 3) es then
                        let er := Event.rename tp a.output_path
                        if w.ok (n2 + 4) er then
                          (e0 :: e1 :: e2 :: e3 :: rp.1 ++ rr.1 ++ [em, ec, ew, es, er],
                            Except.ok ())
                        else
                          (e0 :: e1 :: e2 :: e3 :: rp.1 ++ rr.1 ++ [em, ec, ew, es, er],
                            Except.error BuildError.renameStage)
                      else
                        (e0 :: e1 :: e2 :: e3 :: rp.1 ++ rr.1 ++
                            [em, ec, ew, es, Event.deleteTemp tp],
                          Except.error BuildError.syncManifest)
                    else
                      (e0 :: e1 :: e2 :: e3 :: rp.1 ++ rr.1 ++
                          [em, ec, ew, Event.deleteTemp tp],
                        Except.error BuildError.writeManifest)
                  else
                    (e0 :: e1 :: e2 :: e3 :: rp.1 ++ rr.1 ++
                        [em, ec, Event.deleteTemp tp],
                      Except.error BuildError.createManifest)
                else
                  (e0 :: e1 :: e2 :: e3 :: rp.1 ++ rr.1 ++ [em, Event.deleteTemp tp],
                    Except.error BuildError.manifestGen)
              else
                (e0 :: e1 :: e2 :: e3 :: rp.1 ++ rr.1 ++ [Event.deleteTemp tp],
                  Except.error BuildError.runStage)
            | none =>
              (e0 :: e1 :: e2 :: e3 :: rp.1 ++ [Event.deleteTemp tp],
                Except.error BuildError.prepareStage)
          | none =>
            ([e0, e1, e2, e3, Event.deleteTemp tp], Except.error BuildError.parseConfig)
        else
          ([e0, e1, e2, e3, Event.deleteTemp tp], Except.error BuildError.readConfig)
      else
        ([e0, e1, e2, Event.deleteTemp tp], Except.error BuildError.openConfig)
    else
      ([e0, e1, Event.deleteTemp tp], Except.error BuildError.download)
  else
    ([e0], Except.error BuildError.tempDir)

/-- Does an attempted event, when it succeeds, create, modify, or remove
the filesystem path `p`?  Reads (config open/read, manifest walk, pushes
into the container) do not touch local paths; downloads, pulls, file
creation/writes/syncs, deletion, and both ends of a rename do. -/
def touches (p : FsPath) : Event → Bool
  | Event.mkTempDir q => p = q
  | Event.download _ _ dest => p = dest
  | Event.openConfig _ => false
  | Event.readConfig _ => false
  | Event.containerNew _ _ _ => false
  | Event.push _ _ _ => false
  | Event.exec _ => false
  | Event.snapshot _ => false
  | Event.publishImage _ => false
  | Event.pull _ dest _ => p = dest
  | Event.genManifest _ _ => false
  | Event.createFile q => p = q
  | Event.writeFile q _ => p = q
  | Event.syncFile q => p = q
  | Event.rename src dest => p = src || p = dest
  | Event.deleteTemp q => p = q

/-- A concrete world for witnesses: all operations succeed or fail as
`okf` says, image existence is the constant `ie`, and the collaborators
return fixed data. -/
def mkWorld (okf : Nat → Event → Bool) (ie : Bool) (cfg : Option Config) : World :=
  { ok := okf
    imageExists := fun _ _ => ie
    shaStr := fun _ => "H"
    shaBytes := fun _ => "D"
    downloadTime := 7
    configText := "cfgtext"
    parse := fun _ => cfg
    artifactsTree := [("out", [1, 2])] }

/-- The spec's example configuration (§8). -/
def exampleConfig : Config :=
  { name := "x"
    base := "img1"
    prepare := [["echo", "hi"]]
    build := [["make"]]
    publish := [["cp", "out", "/root/artifacts/"]] }

/-- Concrete build arguments for witnesses. -/
def exampleArgs : BuildArguments :=
  { config_path := "buildchain.json"
    output_path := ["dest"]
    remote_opt := none
    source_url := "https://example.org/src"
    source_kind := "git" }

/-- Concrete temporary-workspace choice for witnesses. -/
def exampleTemp : TempChoice := { tempPath := ["tmp", "buildchain.abc"] }

/-- The full ideal operation sequence of `run`: container creation, source
push, all build commands in order, artifact-directory creation, all
publish commands in order, artifact pull. -/
def runEventList (loc : Location) (config : Config) (buildImage : String)
    (sourceTime : Nat) (sourcePath tempPath : FsPath) : List Event :=
  Event.containerNew loc (runContainerName config sourceTime) buildImage ::
    Event.push sourcePath "/root" true ::
    (config.build.map Event.exec ++
      Event.exec ["mkdir", "/root/artifacts"] ::
        (config.publish.map Event.exec ++ [Event.pull "/root/artifacts" tempPath true]))

/-- The shapes of events `build` can ever attempt, with their target
paths: templates over the temporary path, the output path, and the config
path.  Container-side operations carry no local target path. -/
def okShape (tp out : FsPath) (cp : String) : Event → Prop
  | Event.mkTempDir q => q = tp
  | Event.download _ _ d => d = tp ++ ["source"]
  | Event.openConfig q => q = tp ++ ["source", cp]
  | Event.readConfig q => q = tp ++ ["source", cp]
  | Event.containerNew _ _ _ => True
  | Event.push q r b => q = tp ++ ["source"] ∧ r = "/root" ∧ b = true
  | Event.exec _ => True
  | Event.snapshot _ => True
  | Event.publishImage _ => True
  | Event.pull r d b => r = "/root/artifacts" ∧ d = tp ∧ b = true
  | Event.genManifest _ q => q = tp ++ ["artifacts"]
  | Event.createFile q => q = tp ++ ["manifest.json"]
  | Event.writeFile q _ => q = tp ++ ["manifest.json"]
  | Event.syncFile q => q = tp ++ ["manifest.json"]
  | Event.rename s d => s = tp ∧ d = out
  | Event.deleteTemp q => q = tp

/-- The shapes of events the sandbox stages (`prepare` and `run`) can
attempt: container operations only, with the source pushed from
`tp/source` and the artifacts pulled into `tp`. -/
def sandboxShape (tp : FsPath) : Event → Prop
  | Event.containerNew _ _ _ => True
  | Event.push q r b => q = tp ++ ["source"] ∧ r = "/root" ∧ b = true
  | Event.exec _ => True
  | Event.snapshot _ => True
  | Event.publishImage _ => True
  | Event.pull r d b => r = "/root/artifacts" ∧ d = tp ∧ b = true
  | _ => False

/-- If every command in the list succeeds at its position, the loop
executes all of them in order and reports success. -/
theorem execCmds_all_ok (w : World) (cmds : List (List String)) : ∀ n : Nat,
    (∀ i : Nat, i < cmds.length → w.ok (n + i) (Event.exec (cmds.getD i [])) = true) →
    execCmds w n cmds = (cmds.map Event.exec, true) := by
  induction cmds with
  | nil => intro n _; rfl
  | cons c rest ih =>
      intro n h
      have h0 : w.ok n (Event.exec c) = true := by
        have := h 0 (by simp)
        simpa using this
      have hrest : execCmds w (n + 1) rest = (rest.map Event.exec, true) := by
        apply ih
        intro i hi
        have := h (i + 1) (by simpa using Nat.succ_lt_succ hi)
        simpa [Nat.add_assoc, Nat.add_comm 1 i] using this
      simp [execCmds, h0, hrest]

/-- If the commands before position `k` succeed and the command at `k`
fails, the loop attempts exactly the first `k + 1` commands in order and
reports failure. -/
theorem execCmds_fail_at (w : World) (cmds : List (List String)) : ∀ n k : Nat,
    k < cmds.length →
    (∀ i : Nat, i < k → w.ok (n + i) (Event.exec (cmds.getD i [])) = true) →
    w.ok (n + k) (Event.exec (cmds.getD k [])) = false →
    execCmds w n cmds = ((cmds.take (k + 1)).map Event.exec, false) := by
  induction cmds with
  | nil => intro n k hk; exact absurd hk (by simp)
  | cons c rest ih =>
      intro n k hk hpre hfail
      cases k with
      | zero =>
          have h0 : w.ok n (Event.exec c) = false := by simpa using hfail
          simp [execCmds, h0]
      | succ k =>
          have h0 : w.ok n (Event.exec c) = true := by
            have := hpre 0 (Nat.succ_pos k)
            simpa using this
          have hrest : execCmds w (n + 1) rest =
              ((rest.take (k + 1)).map Event.exec, false) := by
            apply ih (n + 1) k (by simpa using Nat.lt_of_succ_lt_succ hk)
            · intro i hi
              have := hpre (i + 1) (Nat.succ_lt_succ hi)
              simpa [Nat.add_assoc, Nat.add_comm 1 i] using this
            · have := hfail
              simpa [Nat.add_assoc, Nat.add_comm 1 k] using this
          simp [execCmds, h0, hrest]

/-- The loop's trace is always a prefix of the full command list (in
order), and it is the full list exactly when the loop succeeds. -/
theorem execCmds_fits (w : World) (cmds : List (List String)) : ∀ n : Nat,
    (execCmds w n cmds).1 <+: cmds.map Event.exec ∧
      ((execCmds w n cmds).2 = true → (execCmds w n cmds).1 = cmds.map Event.exec) := by
  induction cmds with
  | nil => intro n; exact ⟨⟨_, rfl⟩, fun _ => rfl⟩
  | cons c rest ih =>
      intro n
      cases h0 : w.ok n (Event.exec c) with
      | false =>
          refine ⟨?_, ?_⟩
          · simp only [execCmds, h0]
            exact ⟨rest.map Event.exec, by simp⟩
          · intro habs
            simp [execCmds, h0] at habs
      | true =>
          obtain ⟨hpre, hfull⟩ := ih (n + 1)
          refine ⟨?_, ?_⟩
          · simp only [execCmds, h0, if_true, List.map_cons]
            exact List.cons_prefix_cons.mpr ⟨rfl, hpre⟩
          · intro hsucc
            simp only [execCmds, h0, if_true] at hsucc ⊢
            simp [hfull hsucc]

/-- C1: the environment identity digest computed by `prepare` depends only
on the config's `base` and `prepare` fields: two configs that agree on
those fields get the same digest, for any digest function, regardless of
`name`, `build`, and `publish`. -/
theorem env_digest_depends_only_on_base_prepare
    (shaStr : String → String) (ca cb : Config)
    (hbase : ca.base = cb.base) (hprep : ca.prepare = cb.prepare) :
    buildEnvDigest shaStr ca = buildEnvDigest shaStr cb := by
  simp [buildEnvDigest, hbase, hprep]

/-- Witness for C1 at two concrete configs differing in name, build, and
publish. -/
theorem env_digest_depends_only_on_base_prepare_witness :
    (Config.mk "a" "img" [["x"]] [["make"]] [["cp"]]).base =
        (Config.mk "b" "img" [["x"]] [["gcc"]] [["mv"]]).base ∧
      (Config.mk "a" "img" [["x"]] [["make"]] [["cp"]]).prepare =
        (Config.mk "b" "img" [["x"]] [["gcc"]] [["mv"]]).prepare ∧
      buildEnvDigest (fun s => s) (Config.mk "a" "img" [["x"]] [["make"]] [["cp"]]) =
        buildEnvDigest (fun s => s) (Config.mk "b" "img" [["x"]] [["gcc"]] [["mv"]]) :=
  ⟨rfl, rfl,
    env_digest_depends_only_on_base_prepare (fun s => s)
      (Config.mk "a" "img" [["x"]] [["make"]] [["cp"]])
      (Config.mk "b" "img" [["x"]] [["gcc"]] [["mv"]]) rfl rfl⟩

/-- C2: cache correctness of `prepare`.  If the image with the derived
name exists at the location, `prepare` attempts no operation at all (in
particular no container creation and no prepare command) and returns the
derived name; if it does not exist and the backend operations succeed,
`prepare` creates one container from `config.base`, executes every
command of `config.prepare` exactly once in list order, then snapshots
and publishes under the derived name, and returns it. -/
theorem prepare_cache_correct (w : World) (loc : Location) (config : Config) (n : Nat) :
    (w.imageExists loc (buildImageName w.shaStr config) = true →
      prepare w loc config n = ([], some (buildImageName w.shaStr config))) ∧
    (w.imageExists loc (buildImageName w.shaStr config) = false →
      (∀ (m : Nat) (e : Event), w.ok m e = true) →
      prepare w loc config n =
        (Event.containerNew loc (buildImageName w.shaStr config) config.base ::
            config.prepare.map Event.exec ++
            [Event.snapshot (buildImageName w.shaStr config),
              Event.publishImage (buildImageName w.shaStr config)],
          some (buildImageName w.shaStr config))) := by
  constructor
  · intro h
    simp [prepare, h]
  · intro h hok
    have hall : execCmds w (n + 1) config.prepare = (config.prepare.map Event.exec, true) :=
      execCmds_all_ok w config.prepare (n + 1) (fun i _ => hok _ _)
    simp [prepare, h, hall, hok]

/-- Witness for C2: a cache-hit world and a cache-miss world at the
example config. -/
theorem prepare_cache_correct_witness :
    ((mkWorld (fun _ _ => true) true none).imageExists Location.Local
        (buildImageName (mkWorld (fun _ _ => true) true none).shaStr exampleConfig) = true ∧
      prepare (mkWorld (fun _ _ => true) true none) Location.Local exampleConfig 0 =
        ([], some (buildImageName (mkWorld (fun _ _ => true) true none).shaStr exampleConfig))) ∧
    ((mkWorld (fun _ _ => true) false none).imageExists Location.Local
        (buildImageName (mkWorld (fun _ _ => true) false none).shaStr exampleConfig) = false ∧
      prepare (mkWorld (fun _ _ => true) false none) Location.Local exampleConfig 0 =
        (Event.containerNew Location.Local
            (buildImageName (mkWorld (fun _ _ => true) false none).shaStr exampleConfig)
            exampleConfig.base ::
            exampleConfig.prepare.map Event.exec ++
            [Event.snapshot
                (buildImageName (mkWorld (fun _ _ => true) false none).shaStr exampleConfig),
              Event.publishImage
                (buildImageName (mkWorld (fun _ _ => true) false none).shaStr exampleConfig)],
          some (buildImageName (mkWorld (fun _ _ => true) false none).shaStr exampleConfig))) :=
  ⟨⟨rfl,
      (prepare_cache_correct (mkWorld (fun _ _ => true) true none) Location.Local
          exampleConfig 0).1 rfl⟩,
    ⟨rfl,
      (prepare_cache_correct (mkWorld (fun _ _ => true) false none) Location.Local
          exampleConfig 0).2 rfl (fun _ _ => rfl)⟩⟩

/-- Helper: the trace of `run` is a prefix of the ideal sequence, and is
the whole sequence when `run` succeeds. -/
theorem run_trace_start (w : World) (loc : Location) (config : Config)
    (img : String) (st : Nat) (sp tp : FsPath) (n : Nat) :
    (run w loc config img st sp tp n).1 <+: runEventList loc config img st sp tp ∧
      ((run w loc config img st sp tp n).2 = true →
        (run w loc config img st sp tp n).1 = runEventList loc config img st sp tp) := by
  cases h0 : w.ok n (Event.containerNew loc (runContainerName config st) img) with
  | false =>
      refine ⟨?_, ?_⟩
      · simp only [run, h0, Bool.false_eq_true, if_false, runEventList]
        exact ⟨_, rfl⟩
      · intro hs
        simp [run, h0] at hs
  | true =>
      cases h1 : w.ok (n + 1) (Event.push sp "/root" true) with
      | false =>
          refine ⟨?_, ?_⟩
          · simp only [run, h0, h1, Bool.false_eq_true, if_false, if_true, runEventList]
            exact ⟨_, rfl⟩
          · intro hs
            simp [run, h0, h1] at hs
      | true =>
          obtain ⟨hbp, hbf⟩ := execCmds_fits w config.build (n + 2)
          cases hb : (execCmds w (n + 2) config.build).2 with
          | false =>
              obtain ⟨s, hs⟩ := hbp
              refine ⟨?_, ?_⟩
              · simp only [run, h0, h1, hb, Bool.false_eq_true, if_false, if_true,
                  runEventList]
                exact ⟨s ++ Event.exec ["mkdir", "/root/artifacts"] ::
                    (config.publish.map Event.exec ++
                      [Event.pull "/root/artifacts" tp true]),
                  by simp [← hs]⟩
              · intro habs
                simp [run, h0, h1, hb] at habs
          | true =>
              have hbeq := hbf hb
              simp only [run, h0, h1, hb, hbeq, List.length_map, Bool.false_eq_true,
                if_false, if_true, runEventList]
              cases h2 : w.ok (n + 2 + config.build.length)
                  (Event.exec ["mkdir", "/root/artifacts"]) with
              | false =>
                  refine ⟨?_, ?_⟩
                  · simp only [h2, Bool.false_eq_true, if_false]
                    exact ⟨config.publish.map Event.exec ++
                        [Event.pull "/root/artifacts" tp true], by simp⟩
                  · intro habs
                    simp [h2] at habs
              | true =>
                  obtain ⟨hpp, hpf⟩ :=
                    execCmds_fits w config.publish (n + 2 + config.build.length + 1)
                  cases hp : (execCmds w (n + 2 + config.build.length + 1)
                      config.publish).2 with
                  | false =>
                      obtain ⟨s, hs⟩ := hpp
                      refine ⟨?_, ?_⟩
                      · simp only [h2, hp, Bool.false_eq_true, if_false, if_true]
                        exact ⟨s ++ [Event.pull "/root/artifacts" tp true],
                          by simp [← hs]⟩
                      · intro habs
                        simp [h2, hp] at habs
                  | true =>
                      have hpeq := hpf hp
                      simp only [hpeq, List.length_map, h2, hp, if_true]
                      cases h3 : w.ok (n + 2 + config.build.length + 1 +
                          config.publish.length)
                          (Event.pull "/root/artifacts" tp true) with
                      | false =>
                          refine ⟨?_, ?_⟩
                          · simp only [h3, Bool.false_eq_true, if_false]
                            exact ⟨[], by simp⟩
                          · intro habs
                            simp [h3] at habs
                      | true =>
                          refine ⟨?_, ?_⟩ <;> simp [h3]

/-- C4: every invocation of `run` attempts a prefix of the ideal sequence
container creation, source push, build commands, artifact-directory
creation, publish commands, artifact pull — so no stage is reordered,
repeated, or interleaved — and a successful invocation attempts exactly
the whole sequence. -/
theorem run_pipeline_order (w : World) (loc : Location) (config : Config)
    (img : String) (st : Nat) (sp tp : FsPath) (n : Nat) :
    (run w loc config img st sp tp n).1 <+: runEventList loc config img st sp tp ∧
      ((run w loc config img st sp tp n).2 = true →
        (run w loc config img st sp tp n).1 = runEventList loc config img st sp tp) :=
  run_trace_start w loc config img st sp tp n

/-- Witness for C4 at a concrete all-success world: the run succeeds and
its trace is exactly the ideal sequence. -/
theorem run_pipeline_order_witness :
    (run (mkWorld (fun _ _ => true) true none) Location.Local exampleConfig
        "img" 7 ["s"] ["t"] 0).2 = true ∧
      (run (mkWorld (fun _ _ => true) true none) Location.Local exampleConfig
          "img" 7 ["s"] ["t"] 0).1 =
        runEventList Location.Local exampleConfig "img" 7 ["s"] ["t"] :=
  ⟨rfl,
    (run_pipeline_order (mkWorld (fun _ _ => true) true none) Location.Local
        exampleConfig "img" 7 ["s"] ["t"] 0).2 rfl⟩

/-- C3: abort-on-failure, 0-indexed (`k` here is the claim's `k`-th
command, 1-indexed, minus one).  First part: if preparation command `k`
fails (everything before it succeeding), `build` attempts exactly the
stages through that command — no later prepare command, no snapshot, no
publish, no run stage, no manifest, no rename — deletes the workspace,
and propagates the prepare error.  Second part: if build command `k`
fails (with a cached environment), nothing after it is attempted — no
artifact directory, no publish command, no pull, no manifest, no rename —
and the run error is propagated.  Third part: if publish command `k`
fails, nothing after it is attempted — no pull, no manifest, no rename —
and the run error is propagated. -/
theorem abort_on_first_failure :
    (∀ (w : World) (t : TempChoice) (a : BuildArguments) (cfg : Config) (k : Nat),
      w.parse w.configText = some cfg →
      w.imageExists (locOf a.remote_opt) (buildImageName w.shaStr cfg) = false →
      k < cfg.prepare.length →
      (∀ (m : Nat) (e : Event), m ≠ 5 + k → w.ok m e = true) →
      w.ok (5 + k) (Event.exec (cfg.prepare.getD k [])) = false →
      build w t a =
        ([Event.mkTempDir t.tempPath,
          Event.download a.source_kind a.source_url (t.tempPath ++ ["source"]),
          Event.openConfig (t.tempPath ++ ["source"] ++ [a.config_path]),
          Event.readConfig (t.tempPath ++ ["source"] ++ [a.config_path]),
          Event.containerNew (locOf a.remote_opt) (buildImageName w.shaStr cfg) cfg.base]
            ++ (cfg.prepare.take (k + 1)).map Event.exec
            ++ [Event.deleteTemp t.tempPath],
          Except.error BuildError.prepareStage)) ∧
    (∀ (w : World) (t : TempChoice) (a : BuildArguments) (cfg : Config) (k : Nat),
      w.parse w.configText = some cfg →
      w.imageExists (locOf a.remote_opt) (buildImageName w.shaStr cfg) = true →
      k < cfg.build.length →
      (∀ (m : Nat) (e : Event), m ≠ 6 + k → w.ok m e = true) →
      w.ok (6 + k) (Event.exec (cfg.build.getD k [])) = false →
      build w t a =
        ([Event.mkTempDir t.tempPath,
          Event.download a.source_kind a.source_url (t.tempPath ++ ["source"]),
          Event.openConfig (t.tempPath ++ ["source"] ++ [a.config_path]),
          Event.readConfig (t.tempPath ++ ["source"] ++ [a.config_path]),
          Event.containerNew (locOf a.remote_opt)
            (runContainerName cfg w.downloadTime) (buildImageName w.shaStr cfg),
          Event.push (t.tempPath ++ ["source"]) "/root" true]
            ++ (cfg.build.take (k + 1)).map Event.exec
            ++ [Event.deleteTemp t.tempPath],
          Except.error BuildError.runStage)) ∧
    (∀ (w : World) (t : TempChoice) (a : BuildArguments) (cfg : Config) (k : Nat),
      w.parse w.configText = some cfg →
      w.imageExists (locOf a.remote_opt) (buildImageName w.shaStr cfg) = true →
      k < cfg.publish.length →
      (∀ (m : Nat) (e : Event), m ≠ 7 + cfg.build.length + k → w.ok m e = true) →
      w.ok (7 + cfg.build.length + k) (Event.exec (cfg.publish.getD k [])) = false →
      build w t a =
        ([Event.mkTempDir t.tempPath,
          Event.download a.source_kind a.source_url (t.tempPath ++ ["source"]),
          Event.openConfig (t.tempPath ++ ["source"] ++ [a.config_path]),
          Event.readConfig (t.tempPath ++ ["source"] ++ [a.config_path]),
          Event.containerNew (locOf a.remote_opt)
            (runContainerName cfg w.downloadTime) (buildImageName w.shaStr cfg),
          Event.push (t.tempPath ++ ["source"]) "/root" true]
            ++ cfg.build.map Event.exec
            ++ [Event.exec ["mkdir", "/root/artifacts"]]
            ++ (cfg.publish.take (k + 1)).map Event.exec
            ++ [Event.deleteTemp t.tempPath],
          Except.error BuildError.runStage)) := by
  refine ⟨?_, ?_, ?_⟩
  · intro w t a cfg k hparse hie hk hok hfail
    have h0 : w.ok 0 (Event.mkTempDir t.tempPath) = true := hok _ _ (by omega)
    have h1 : w.ok 1 (Event.download a.source_kind a.source_url
        (t.tempPath ++ ["source"])) = true := hok _ _ (by omega)
    have h2 : w.ok 2 (Event.openConfig (t.tempPath ++ ["source", a.config_path])) =
        true := hok _ _ (by omega)
    have h3 : w.ok 3 (Event.readConfig (t.tempPath ++ ["source", a.config_path])) =
        true := hok _ _ (by omega)
    have h4 : w.ok 4 (Event.containerNew (locOf a.remote_opt)
        (buildImageName w.shaStr cfg) cfg.base) = true := hok _ _ (by omega)
    have hex : execCmds w 5 cfg.prepare = ((cfg.prepare.take (k + 1)).map Event.exec, false) :=
      execCmds_fail_at w cfg.prepare 5 k hk (fun i hi => hok _ _ (by omega)) hfail
    simp [build, prepare, h0, h1, h2, h3, h4, hex, hparse, hie]
  · intro w t a cfg k hparse hie hk hok hfail
    have h0 : w.ok 0 (Event.mkTempDir t.tempPath) = true := hok _ _ (by omega)
    have h1 : w.ok 1 (Event.download a.source_kind a.source_url
        (t.tempPath ++ ["source"])) = true := hok _ _ (by omega)
    have h2 : w.ok 2 (Event.openConfig (t.tempPath ++ ["source", a.config_path])) =
        true := hok _ _ (by omega)
    have h3 : w.ok 3 (Event.readConfig (t.tempPath ++ ["source", a.config_path])) =
        true := hok _ _ (by omega)
    have h4 : w.ok 4 (Event.containerNew (locOf a.remote_opt)
        (runContainerName cfg w.downloadTime) (buildImageName w.shaStr cfg)) = true :=
      hok _ _ (by omega)
    have h5 : w.ok 5 (Event.push (t.tempPath ++ ["source"]) "/root" true) = true :=
      hok _ _ (by omega)
    have hex : execCmds w 6 cfg.build = ((cfg.build.take (k + 1)).map Event.exec, false) :=
      execCmds_fail_at w cfg.build 6 k hk (fun i hi => hok _ _ (by omega)) hfail
    simp [build, prepare, run, h0, h1, h2, h3, h4, h5, hex, hparse, hie]
  · intro w t a cfg k hparse hie hk hok hfail
    have h0 : w.ok 0 (Event.mkTempDir t.tempPath) = true := hok _ _ (by omega)
    have h1 : w.ok 1 (Event.download a.source_kind a.source_url
        (t.tempPath ++ ["source"])) = true := hok _ _ (by omega)
    have h2 : w.ok 2 (Event.openConfig (t.tempPath ++ ["source", a.config_path])) =
        true := hok _ _ (by omega)
    have h3 : w.ok 3 (Event.readConfig (t.tempPath ++ ["source", a.config_path])) =
        true := hok _ _ (by omega)
    have h4 : w.ok 4 (Event.containerNew (locOf a.remote_opt)
        (runContainerName cfg w.downloadTime) (buildImageName w.shaStr cfg)) = true :=
      hok _ _ (by omega)
    have h5 : w.ok 5 (Event.push (t.tempPath ++ ["source"]) "/root" true) = true :=
      hok _ _ (by omega)
    have hexb : execCmds w 6 cfg.build = (cfg.build.map Event.exec, true) :=
      execCmds_all_ok w cfg.build 6 (fun i hi => hok _ _ (by omega))
    have h6 : w.ok (6 + cfg.build.length) (Event.exec ["mkdir", "/root/artifacts"]) =
        true := hok _ _ (by omega)
    have hfp : w.ok (6 + cfg.build.length + 1 + k)
        (Event.exec (cfg.publish.getD k [])) = false := by
      rw [show 6 + cfg.build.length + 1 + k = 7 + cfg.build.length + k from by omega]
      exact hfail
    have hexp : execCmds w (6 + cfg.build.length + 1) cfg.publish =
        ((cfg.publish.take (k + 1)).map Event.exec, false) :=
      execCmds_fail_at w cfg.publish (6 + cfg.build.length + 1) k hk
        (fun i hi => hok _ _ (by omega)) hfp
    simp [build, prepare, run, h0, h1, h2, h3, h4, h5, hexb, h6, hexp, hparse, hie]

/-- Sandbox-stage event shapes are build event shapes. -/
theorem sandboxShape_okShape (tp out : FsPath) (cp : String) {e : Event}
    (h : sandboxShape tp e) : okShape tp out cp e := by
  cases e <;> simp_all [sandboxShape, okShape]

/-- Every event attempted by a command loop is an `exec`. -/
theorem execCmds_events (w : World) (cmds : List (List String)) : ∀ n : Nat,
    ∀ e ∈ (execCmds w n cmds).1, ∃ c, e = Event.exec c := by
  induction cmds with
  | nil => intro n e he; simp [execCmds] at he
  | cons c rest ih =>
      intro n e he
      by_cases h : w.ok n (Event.exec c) = true
      · simp only [execCmds, h, if_true] at he
        rcases List.mem_cons.mp he with rfl | hm
        · exact ⟨c, rfl⟩
        · exact ih (n + 1) e hm
      · simp [execCmds, h] at he
        exact ⟨c, he⟩

/-- Every event attempted by `prepare` fits the sandbox event shapes
(container creation, command execution, snapshot, image publication). -/
theorem prepare_events (w : World) (loc : Location) (cfg : Config) (n : Nat)
    (tp : FsPath) :
    ∀ e ∈ (prepare w loc cfg n).1, sandboxShape tp e := by
  intro e he
  simp only [prepare] at he
  split at he
  · simp at he
  · split at he
    · split at he
      · split at he
        · split at he <;>
          · rcases List.mem_cons.mp he with rfl | hm
            · trivial
            · rcases List.mem_append.mp hm with hm2 | hm2
              · obtain ⟨c, rfl⟩ := execCmds_events w cfg.prepare (n + 1) e hm2
                trivial
              · rcases List.mem_cons.mp hm2 with rfl | hm3
                · trivial
                · rcases List.mem_singleton.mp hm3 with rfl
                  trivial
        · rcases List.mem_cons.mp he with rfl | hm
          · trivial
          · rcases List.mem_append.mp hm with hm2 | hm2
            · obtain ⟨c, rfl⟩ := execCmds_events w cfg.prepare (n + 1) e hm2
              trivial
            · rcases List.mem_singleton.mp hm2 with rfl
              trivial
      · rcases List.mem_cons.mp he with rfl | hm
        · trivial
        · obtain ⟨c, rfl⟩ := execCmds_events w cfg.prepare (n + 1) e hm
          trivial
    · rcases List.mem_singleton.mp he with rfl
      trivial

/-- Every event attempted by `run` (with the source pushed from
`tp/source` and artifacts pulled into `tp`) fits the build event
shapes. -/
theorem run_events (w : World) (loc : Location) (cfg : Config) (img : String)
    (st : Nat) (n : Nat) (tp : FsPath) :
    ∀ e ∈ (run w loc cfg img st (tp ++ ["source"]) tp n).1, sandboxShape tp e := by
  intro e he
  have hsub := (run_trace_start w loc cfg img st (tp ++ ["source"]) tp n).1.subset he
  simp only [runEventList, List.mem_cons, List.mem_append, List.mem_singleton,
    List.not_mem_nil, or_false] at hsub
  rcases hsub with rfl | rfl | hm | hm
  · trivial
  · exact ⟨rfl, rfl, rfl⟩
  · obtain ⟨c, _, rfl⟩ := List.mem_map.mp hm
    trivial
  · rcases hm with rfl | hm
    · trivial
    · rcases hm with hm | rfl
      · obtain ⟨c, _, rfl⟩ := List.mem_map.mp hm
        trivial
      · exact ⟨rfl, rfl, rfl⟩

/-- Every event attempted by `build` fits the build event shapes: its
target paths are the workspace and its subpaths, except for the single
final rename onto the output path. -/
theorem build_events (w : World) (t : TempChoice) (a : BuildArguments) :
    ∀ e ∈ (build w t a).1, okShape t.tempPath a.output_path a.config_path e := by
  intro e he
  by_cases p0 : w.ok 0 (Event.mkTempDir t.tempPath) = true
  case neg =>
    simp [build, p0] at he
    rcases he with rfl
    trivial
  by_cases p1 : w.ok 1 (Event.download a.source_kind a.source_url
    (t.tempPath ++ ["source"])) = true
  case neg =>
    simp [build, p0, p1] at he
    rcases he with rfl | rfl | rfl <;> trivial
  by_cases p2 : w.ok 2 (Event.openConfig (t.tempPath ++ ["source", a.config_path])) = true
  case neg =>
    simp [build, p0, p1, p2] at he
    rcases he with rfl | rfl | rfl | rfl <;> trivial
  by_cases p3 : w.ok 3 (Event.readConfig (t.tempPath ++ ["source", a.config_path])) = true
  case neg =>
    simp [build, p0, p1, p2, p3] at he
    rcases he with rfl | rfl | rfl | rfl | rfl <;> trivial
  by_cases hp0 : w.parse w.configText = none
  case pos =>
    simp [build, p0, p1, p2, p3, hp0] at he
    rcases he with rfl | rfl | rfl | rfl | rfl <;> trivial
  obtain ⟨cfg, hp⟩ := Option.ne_none_iff_exists'.mp hp0
  by_cases hq0 : (prepare w (locOf a.remote_opt) cfg 4).2 = none
  case pos =>
    simp [build, p0, p1, p2, p3, hp, hq0] at he
    rcases he with rfl | rfl | rfl | rfl | hpe | rfl <;>
      first
      | trivial
      | exact ⟨rfl, rfl⟩
      | exact sandboxShape_okShape _ _ _ (prepare_events w _ _ 4 _ e hpe)
      | exact sandboxShape_okShape _ _ _ (run_events w _ _ _ _ _ _ e hre)
  obtain ⟨img, hq⟩ := Option.ne_none_iff_exists'.mp hq0
  by_cases hr : (run w (locOf a.remote_opt) cfg img w.downloadTime
    (t.tempPath ++ ["source"]) t.tempPath
    (4 + (prepare w (locOf a.remote_opt) cfg 4).1.length)).2 = true
  case neg =>
    simp [build, p0, p1, p2, p3, hp, hq, hr] at he
    rcases he with rfl | rfl | rfl | rfl | hpe | hre | rfl <;>
      first
      | trivial
      | exact ⟨rfl, rfl⟩
      | exact sandboxShape_okShape _ _ _ (prepare_events w _ _ 4 _ e hpe)
      | exact sandboxShape_okShape _ _ _ (run_events w _ _ _ _ _ _ e hre)
  by_cases pm : w.ok (4 + (prepare w (locOf a.remote_opt) cfg 4).1.length +
      (run w (locOf a.remote_opt) cfg img w.downloadTime (t.tempPath ++ ["source"])
        t.tempPath (4 + (prepare w (locOf a.remote_opt) cfg 4).1.length)).1.length)
    (Event.genManifest w.downloadTime (t.tempPath ++ ["artifacts"])) = true
  case neg =>
    simp [build, p0, p1, p2, p3, hp, hq, hr, pm] at he
    rcases he with rfl | rfl | rfl | rfl | hpe | hre | rfl | rfl <;>
      first
      | trivial
      | exact ⟨rfl, rfl⟩
      | exact sandboxShape_okShape _ _ _ (prepare_events w _ _ 4 _ e hpe)
      | exact sandboxShape_okShape _ _ _ (run_events w _ _ _ _ _ _ e hre)
  by_cases pc : w.ok (4 + (prepare w (locOf a.remote_opt) cfg 4).1.length +
      (run w (locOf a.remote_opt) cfg img w.downloadTime (t.tempPath ++ ["source"])
        t.tempPath (4 + (prepare w (locOf a.remote_opt) cfg 4).1.length)).1.length + 1)
    (Event.createFile (t.tempPath ++ ["manifest.json"])) = true
  case neg =>
    simp [build, p0, p1, p2, p3, hp, hq, hr, pm, pc] at he
    rcases he with rfl | rfl | rfl | rfl | hpe | hre | rfl | rfl | rfl <;>
      first
      | trivial
      | exact ⟨rfl, rfl⟩
      | exact sandboxShape_okShape _ _ _ (prepare_events w _ _ 4 _ e hpe)
      | exact sandboxShape_okShape _ _ _ (run_events w _ _ _ _ _ _ e hre)
  by_cases pw : w.ok (4 + (prepare w (locOf a.remote_opt) cfg 4).1.length +
      (run w (locOf a.remote_opt) cfg img w.downloadTime (t.tempPath ++ ["source"])
        t.tempPath (4 + (prepare w (locOf a.remote_opt) cfg 4).1.length)).1.length + 2)
    (Event.writeFile (t.tempPath ++ ["manifest.json"])
      (serializeManifest (Manifest.new w.shaBytes w.downloadTime w.artifactsTree))) = true
  case neg =>
    simp [build, p0, p1, p2, p3, hp, hq, hr, pm, pc, pw] at he
    rcases he with rfl | rfl | rfl | rfl | hpe | hre | rfl | rfl | rfl | rfl <;>
      first
      | trivial
      | exact ⟨rfl, rfl⟩
      | exact sandboxShape_okShape _ _ _ (prepare_events w _ _ 4 _ e hpe)
      | exact sandboxShape_okShape _ _ _ (run_events w _ _ _ _ _ _ e hre)
  by_cases ps : w.ok (4 + (prepare w (locOf a.remote_opt) cfg 4).1.length +
      (run w (locOf a.remote_opt) cfg img w.downloadTime (t.tempPath ++ ["source"])
        t.tempPath (4 + (prepare w (locOf a.remote_opt) cfg 4).1.length)).1.length + 3)
    (Event.syncFile (t.tempPath ++ ["manifest.json"])) = true
  case neg =>
    simp [build, p0, p1, p2, p3, hp, hq, hr, pm, pc, pw, ps] at he
    rcases he with rfl | rfl | rfl | rfl | hpe | hre | rfl | rfl | rfl | rfl | rfl <;>
      first
      | trivial
      | exact ⟨rfl, rfl⟩
      | exact sandboxShape_okShape _ _ _ (prepare_events w _ _ 4 _ e hpe)
      | exact sandboxShape_okShape _ _ _ (run_events w _ _ _ _ _ _ e hre)
  by_cases pr : w.ok (4 + (prepare w (locOf a.remote_opt) cfg 4).1.length +
      (run w (locOf a.remote_opt) cfg img w.downloadTime (t.tempPath ++ ["source"])
        t.tempPath (4 + (prepare w (locOf a.remote_opt) cfg 4).1.length)).1.length + 4)
    (Event.rename t.tempPath a.output_path) = true
  case neg =>
    simp [build, p0, p1, p2, p3, hp, hq, hr, pm, pc, pw, ps, pr] at he
    rcases he with rfl | rfl | rfl | rfl | hpe | hre | rfl | rfl | rfl | rfl | rfl <;>
      first
      | trivial
      | exact ⟨rfl, rfl⟩
      | exact sandboxShape_okShape _ _ _ (prepare_events w _ _ 4 _ e hpe)
      | exact sandboxShape_okShape _ _ _ (run_events w _ _ _ _ _ _ e hre)
  simp [build, p0, p1, p2, p3, hp, hq, hr, pm, pc, pw, ps, pr] at he
  rcases he with rfl | rfl | rfl | rfl | hpe | hre | rfl | rfl | rfl | rfl | rfl <;>
    first
    | trivial
    | exact ⟨rfl, rfl⟩
    | exact sandboxShape_okShape _ _ _ (prepare_events w _ _ 4 _ e hpe)
    | exact sandboxShape_okShape _ _ _ (run_events w _ _ _ _ _ _ e hre)

/-- C5, part 1 helper shape: an attempted event that touches the output
path can only be the final rename. -/
theorem only_rename_touches_output (w : World) (t : TempChoice) (a : BuildArguments)
    (h1 : a.output_path ≠ t.tempPath)
    (h2 : a.output_path ≠ t.tempPath ++ ["source"])
    (h3 : a.output_path ≠ t.tempPath ++ ["manifest.json"]) :
    ∀ e ∈ (build w t a).1, touches a.output_path e = true →
      e = Event.rename t.tempPath a.output_path := by
  intro e he ht
  have hs := build_events w t a e he
  cases e with
  | mkTempDir q =>
      simp [touches] at ht
      simp only [okShape] at hs
      exact absurd (ht.trans hs) h1
  | download k u dest =>
      simp [touches] at ht
      simp only [okShape] at hs
      exact absurd (ht.trans hs) h2
  | openConfig q => simp [touches] at ht
  | readConfig q => simp [touches] at ht
  | containerNew l i b => simp [touches] at ht
  | push q r b => simp [touches] at ht
  | exec c => simp [touches] at ht
  | snapshot sn => simp [touches] at ht
  | publishImage sn => simp [touches] at ht
  | pull r dest b =>
      simp [touches] at ht
      simp only [okShape] at hs
      exact absurd (ht.trans hs.2.1) h1
  | genManifest ti q => simp [touches] at ht
  | createFile q =>
      simp [touches] at ht
      simp only [okShape] at hs
      exact absurd (ht.trans hs) h3
  | writeFile q sn =>
      simp [touches] at ht
      simp only [okShape] at hs
      exact absurd (ht.trans hs) h3
  | syncFile q =>
      simp [touches] at ht
      simp only [okShape] at hs
      exact absurd (ht.trans hs) h3
  | rename src dest =>
      simp only [okShape] at hs
      rw [hs.1, hs.2]
  | deleteTemp q =>
      simp [touches] at ht
      simp only [okShape] at hs
      exact absurd (ht.trans hs) h1

/-- C5, part 2 helper: when `build` returns Ok, its final attempted
operation is the rename of the workspace onto the output path, and that
rename succeeded. -/
theorem build_ok_final_rename (w : World) (t : TempChoice) (a : BuildArguments)
    (hok : (build w t a).2 = Except.ok ()) :
    ∃ pre, (build w t a).1 = pre ++ [Event.rename t.tempPath a.output_path] ∧
      w.ok pre.length (Event.rename t.tempPath a.output_path) = true := by
  by_cases p0 : w.ok 0 (Event.mkTempDir t.tempPath) = true
  case neg => simp [build, p0] at hok
  by_cases p1 : w.ok 1 (Event.download a.source_kind a.source_url
    (t.tempPath ++ ["source"])) = true
  case neg => simp [build, p0, p1] at hok
  by_cases p2 : w.ok 2 (Event.openConfig (t.tempPath ++ ["source", a.config_path])) = true
  case neg => simp [build, p0, p1, p2] at hok
  by_cases p3 : w.ok 3 (Event.readConfig (t.tempPath ++ ["source", a.config_path])) = true
  case neg => simp [build, p0, p1, p2, p3] at hok
  by_cases hp0 : w.parse w.configText = none
  case pos => simp [build, p0, p1, p2, p3, hp0] at hok
  obtain ⟨cfg, hp⟩ := Option.ne_none_iff_exists'.mp hp0
  by_cases hq0 : (prepare w (locOf a.remote_opt) cfg 4).2 = none
  case pos => simp [build, p0, p1, p2, p3, hp, hq0] at hok
  obtain ⟨img, hq⟩ := Option.ne_none_iff_exists'.mp hq0
  by_cases hr : (run w (locOf a.remote_opt) cfg img w.downloadTime
    (t.tempPath ++ ["source"]) t.tempPath
    (4 + (prepare w (locOf a.remote_opt) cfg 4).1.length)).2 = true
  case neg => simp [build, p0, p1, p2, p3, hp, hq, hr] at hok
  by_cases pm : w.ok (4 + (prepare w (locOf a.remote_opt) cfg 4).1.length +
      (run w (locOf a.remote_opt) cfg img w.downloadTime (t.tempPath ++ ["source"])
        t.tempPath (4 + (prepare w (locOf a.remote_opt) cfg 4).1.length)).1.length)
    (Event.genManifest w.downloadTime (t.tempPath ++ ["artifacts"])) = true
  case neg => simp [build, p0, p1, p2, p3, hp, hq, hr, pm] at hok
  by_cases pc : w.ok (4 + (prepare w (locOf a.remote_opt) cfg 4).1.length +
      (run w (locOf a.remote_opt) cfg img w.downloadTime (t.tempPath ++ ["source"])
        t.tempPath (4 + (prepare w (locOf a.remote_opt) cfg 4).1.length)).1.length + 1)
    (Event.createFile (t.tempPath ++ ["manifest.json"])) = true
  case neg => simp [build, p0, p1, p2, p3, hp, hq, hr, pm, pc] at hok
  by_cases pw : w.ok (4 + (prepare w (locOf a.remote_opt) cfg 4).1.length +
      (run w (locOf a.remote_opt) cfg img w.downloadTime (t.tempPath ++ ["source"])
        t.tempPath (4 + (prepare w (locOf a.remote_opt) cfg 4).1.length)).1.length + 2)
    (Event.writeFile (t.tempPath ++ ["manifest.json"])
      (serializeManifest (Manifest.new w.shaBytes w.downloadTime w.artifactsTree))) = true
  case neg => simp [build, p0, p1, p2, p3, hp, hq, hr, pm, pc, pw] at hok
  by_cases ps : w.ok (4 + (prepare w (locOf a.remote_opt) cfg 4).1.length +
      (run w (locOf a.remote_opt) cfg img w.downloadTime (t.tempPath ++ ["source"])
        t.tempPath (4 + (prepare w (locOf a.remote_opt) cfg 4).1.length)).1.length + 3)
    (Event.syncFile (t.tempPath ++ ["manifest.json"])) = true
  case neg => simp [build, p0, p1, p2, p3, hp, hq, hr, pm, pc, pw, ps] at hok
  by_cases pr : w.ok (4 + (prepare w (locOf a.remote_opt) cfg 4).1.length +
      (run w (locOf a.remote_opt) cfg img w.downloadTime (t.tempPath ++ ["source"])
        t.tempPath (4 + (prepare w (locOf a.remote_opt) cfg 4).1.length)).1.length + 4)
    (Event.rename t.tempPath a.output_path) = true
  case neg => simp [build, p0, p1, p2, p3, hp, hq, hr, pm, pc, pw, ps, pr] at hok
  refine ⟨Event.mkTempDir t.tempPath ::
      Event.download a.source_kind a.source_url (t.tempPath ++ ["source"]) ::
      Event.openConfig (t.tempPath ++ ["source", a.config_path]) ::
      Event.readConfig (t.tempPath ++ ["source", a.config_path]) ::
      ((prepare w (locOf a.remote_opt) cfg 4).1 ++
        ((run w (locOf a.remote_opt) cfg img w.downloadTime (t.tempPath ++ ["source"])
            t.tempPath (4 + (prepare w (locOf a.remote_opt) cfg 4).1.length)).1 ++
          [Event.genManifest w.downloadTime (t.tempPath ++ ["artifacts"]),
            Event.createFile (t.tempPath ++ ["manifest.json"]),
            Event.writeFile (t.tempPath ++ ["manifest.json"])
              (serializeManifest (Manifest.new w.shaBytes w.downloadTime w.artifactsTree)),
            Event.syncFile (t.tempPath ++ ["manifest.json"])])), ?_, ?_⟩
  · simp [build, p0, p1, p2, p3, hp, hq, hr, pm, pc, pw, ps, pr]
  · simp only [List.length_cons, List.length_append, List.length_nil]
    convert pr using 2
    omega

/-- C5, part 3 helper: when `build` returns an error, either the rename
onto the output path was never attempted, or the error is the rename's
own failure. -/
theorem build_error_rename_cases (w : World) (t : TempChoice) (a : BuildArguments)
    (hne : (build w t a).2 ≠ Except.ok ()) :
    Event.rename t.tempPath a.output_path ∉ (build w t a).1 ∨
      (build w t a).2 = Except.error BuildError.renameStage := by
  by_cases p0 : w.ok 0 (Event.mkTempDir t.tempPath) = true
  case neg =>
    left
    intro hmem
    simp [build, p0] at hmem
  by_cases p1 : w.ok 1 (Event.download a.source_kind a.source_url
    (t.tempPath ++ ["source"])) = true
  case neg =>
    left
    intro hmem
    simp [build, p0, p1] at hmem
  by_cases p2 : w.ok 2 (Event.openConfig (t.tempPath ++ ["source", a.config_path])) = true
  case neg =>
    left
    intro hmem
    simp [build, p0, p1, p2] at hmem
  by_cases p3 : w.ok 3 (Event.readConfig (t.tempPath ++ ["source", a.config_path])) = true
  case neg =>
    left
    intro hmem
    simp [build, p0, p1, p2, p3] at hmem
  by_cases hp0 : w.parse w.configText = none
  case pos =>
    left
    intro hmem
    simp [build, p0, p1, p2, p3, hp0] at hmem
  obtain ⟨cfg, hp⟩ := Option.ne_none_iff_exists'.mp hp0
  by_cases hq0 : (prepare w (locOf a.remote_opt) cfg 4).2 = none
  case pos =>
    left
    intro hmem
    simp [build, p0, p1, p2, p3, hp, hq0] at hmem
    have hsb := prepare_events w (locOf a.remote_opt) cfg 4 t.tempPath _ hmem
    simp [sandboxShape] at hsb
  obtain ⟨img, hq⟩ := Option.ne_none_iff_exists'.mp hq0
  by_cases hr : (run w (locOf a.remote_opt) cfg img w.downloadTime
    (t.tempPath ++ ["source"]) t.tempPath
    (4 + (prepare w (locOf a.remote_opt) cfg 4).1.length)).2 = true
  case neg =>
    left
    intro hmem
    simp [build, p0, p1, p2, p3, hp, hq, hr] at hmem
    rcases hmem with h | h
    · have hsb := prepare_events w (locOf a.remote_opt) cfg 4 t.tempPath _ h
      simp [sandboxShape] at hsb
    · have hsb := run_events w (locOf a.remote_opt) cfg img w.downloadTime _ t.tempPath _ h
      simp [sandboxShape] at hsb
  by_cases pm : w.ok (4 + (prepare w (locOf a.remote_opt) cfg 4).1.length +
      (run w (locOf a.remote_opt) cfg img w.downloadTime (t.tempPath ++ ["source"])
        t.tempPath (4 + (prepare w (locOf a.remote_opt) cfg 4).1.length)).1.length)
    (Event.genManifest w.downloadTime (t.tempPath ++ ["artifacts"])) = true
  case neg =>
    left
    intro hmem
    simp [build, p0, p1, p2, p3, hp, hq, hr, pm] at hmem
    rcases hmem with h | h
    · have hsb := prepare_events w (locOf a.remote_opt) cfg 4 t.tempPath _ h
      simp [sandboxShape] at hsb
    · have hsb := run_events w (locOf a.remote_opt) cfg img w.downloadTime _ t.tempPath _ h
      simp [sandboxShape] at hsb
  by_cases pc : w.ok (4 + (prepare w (locOf a.remote_opt) cfg 4).1.length +
      (run w (locOf a.remote_opt) cfg img w.downloadTime (t.tempPath ++ ["source"])
        t.tempPath (4 + (prepare w (locOf a.remote_opt) cfg 4).1.length)).1.length + 1)
    (Event.createFile (t.tempPath ++ ["manifest.json"])) = true
  case neg =>
    left
    intro hmem
    simp [build, p0, p1, p2, p3, hp, hq, hr, pm, pc] at hmem
    rcases hmem with h | h
    · have hsb := prepare_events w (locOf a.remote_opt) cfg 4 t.tempPath _ h
      simp [sandboxShape] at hsb
    · have hsb := run_events w (locOf a.remote_opt) cfg img w.downloadTime _ t.tempPath _ h
      simp [sandboxShape] at hsb
  by_cases pw : w.ok (4 + (prepare w (locOf a.remote_opt) cfg 4).1.length +
      (run w (locOf a.remote_opt) cfg img w.downloadTime (t.tempPath ++ ["source"])
        t.tempPath (4 + (prepare w (locOf a.remote_opt) cfg 4).1.length)).1.length + 2)
    (Event.writeFile (t.tempPath ++ ["manifest.json"])
      (serializeManifest (Manifest.new w.shaBytes w.downloadTime w.artifactsTree))) = true
  case neg =>
    left
    intro hmem
    simp [build, p0, p1, p2, p3, hp, hq, hr, pm, pc, pw] at hmem
    rcases hmem with h | h
    · have hsb := prepare_events w (locOf a.remote_opt) cfg 4 t.tempPath _ h
      simp [sandboxShape] at hsb
    · have hsb := run_events w (locOf a.remote_opt) cfg img w.downloadTime _ t.tempPath _ h
      simp [sandboxShape] at hsb
  by_cases ps : w.ok (4 + (prepare w (locOf a.remote_opt) cfg 4).1.length +
      (run w (locOf a.remote_opt) cfg img w.downloadTime (t.tempPath ++ ["source"])
        t.tempPath (4 + (prepare w (locOf a.remote_opt) cfg 4).1.length)).1.length + 3)
    (Event.syncFile (t.tempPath ++ ["manifest.json"])) = true
  case neg =>
    left
    intro hmem
    simp [build, p0, p1, p2, p3, hp, hq, hr, pm, pc, pw, ps] at hmem
    rcases hmem with h | h
    · have hsb := prepare_events w (locOf a.remote_opt) cfg 4 t.tempPath _ h
      simp [sandboxShape] at hsb
    · have hsb := run_events w (locOf a.remote_opt) cfg img w.downloadTime _ t.tempPath _ h
      simp [sandboxShape] at hsb
  by_cases pr : w.ok (4 + (prepare w (locOf a.remote_opt) cfg 4).1.length +
      (run w (locOf a.remote_opt) cfg img w.downloadTime (t.tempPath ++ ["source"])
        t.tempPath (4 + (prepare w (locOf a.remote_opt) cfg 4).1.length)).1.length + 4)
    (Event.rename t.tempPath a.output_path) = true
  case neg =>
    right
    simp [build, p0, p1, p2, p3, hp, hq, hr, pm, pc, pw, ps, pr]
  exact absurd (show (build w t a).2 = Except.ok () by
    simp [build, p0, p1, p2, p3, hp, hq, hr, pm, pc, pw, ps, pr]) hne

/-- C5: atomic finalization.  Provided the caller's output path is not the
temporary workspace or one of its subpaths (the workspace is a fresh
temporary directory), (1) the only attempted operation that touches the
output path is the single final rename of the workspace; (2) when `build`
returns Ok, its trace ends with that rename and the rename succeeded, so
the output path exists fully populated; (3) when `build` returns an
error, either the rename was never attempted, or the error is the
rename's own failure — in both cases the output path was never created or
modified. -/
theorem atomic_finalization (w : World) (t : TempChoice) (a : BuildArguments)
    (h1 : a.output_path ≠ t.tempPath)
    (h2 : a.output_path ≠ t.tempPath ++ ["source"])
    (h3 : a.output_path ≠ t.tempPath ++ ["manifest.json"]) :
    (∀ e ∈ (build w t a).1, touches a.output_path e = true →
        e = Event.rename t.tempPath a.output_path) ∧
      ((build w t a).2 = Except.ok () →
        ∃ pre, (build w t a).1 = pre ++ [Event.rename t.tempPath a.output_path] ∧
          w.ok pre.length (Event.rename t.tempPath a.output_path) = true) ∧
      ((build w t a).2 ≠ Except.ok () →
        Event.rename t.tempPath a.output_path ∉ (build w t a).1 ∨
          (build w t a).2 = Except.error BuildError.renameStage) :=
  ⟨only_rename_touches_output w t a h1 h2 h3,
    fun hok => build_ok_final_rename w t a hok,
    fun hne => build_error_rename_cases w t a hne⟩

/-- Witness for C5 at a concrete all-success world and the example
arguments. -/
theorem atomic_finalization_witness :
    (∀ e ∈ (build (mkWorld (fun _ _ => true) true (some exampleConfig))
        exampleTemp exampleArgs).1,
      touches exampleArgs.output_path e = true →
        e = Event.rename exampleTemp.tempPath exampleArgs.output_path) ∧
      ((build (mkWorld (fun _ _ => true) true (some exampleConfig))
            exampleTemp exampleArgs).2 = Except.ok () →
        ∃ pre, (build (mkWorld (fun _ _ => true) true (some exampleConfig))
            exampleTemp exampleArgs).1 =
            pre ++ [Event.rename exampleTemp.tempPath exampleArgs.output_path] ∧
          (mkWorld (fun _ _ => true) true (some exampleConfig)).ok pre.length
            (Event.rename exampleTemp.tempPath exampleArgs.output_path) = true) ∧
      ((build (mkWorld (fun _ _ => true) true (some exampleConfig))
            exampleTemp exampleArgs).2 ≠ Except.ok () →
        Event.rename exampleTemp.tempPath exampleArgs.output_path ∉
            (build (mkWorld (fun _ _ => true) true (some exampleConfig))
              exampleTemp exampleArgs).1 ∨
          (build (mkWorld (fun _ _ => true) true (some exampleConfig))
              exampleTemp exampleArgs).2 = Except.error BuildError.renameStage) :=
  atomic_finalization (mkWorld (fun _ _ => true) true (some exampleConfig))
    exampleTemp exampleArgs (by decide) (by decide) (by decide)

/-- C10: after the build commands all succeed, the artifact directory is
created by executing `["mkdir", "/root/artifacts"]` in the run container;
if that exec fails, `run` propagates the error and its trace stops at the
mkdir attempt, so no publish command and no artifact pull is ever
attempted. -/
theorem artifact_dir_mkdir (w : World) (loc : Location) (cfg : Config)
    (img : String) (st : Nat) (sp tp : FsPath) (n : Nat)
    (h4 : w.ok n (Event.containerNew loc (runContainerName cfg st) img) = true)
    (h5 : w.ok (n + 1) (Event.push sp "/root" true) = true)
    (hball : ∀ i : Nat, i < cfg.build.length →
      w.ok (n + 2 + i) (Event.exec (cfg.build.getD i [])) = true)
    (hmk : w.ok (n + 2 + cfg.build.length)
      (Event.exec ["mkdir", "/root/artifacts"]) = false) :
    run w loc cfg img st sp tp n =
      (Event.containerNew loc (runContainerName cfg st) img ::
          Event.push sp "/root" true :: cfg.build.map Event.exec ++
          [Event.exec ["mkdir", "/root/artifacts"]], false) ∧
      Event.pull "/root/artifacts" tp true ∉ (run w loc cfg img st sp tp n).1 := by
  have hexb := execCmds_all_ok w cfg.build (n + 2) hball
  have hrun : run w loc cfg img st sp tp n =
      (Event.containerNew loc (runContainerName cfg st) img ::
        Event.push sp "/root" true :: cfg.build.map Event.exec ++
        [Event.exec ["mkdir", "/root/artifacts"]], false) := by
    simp [run, h4, h5, hexb, hmk]
  refine ⟨hrun, ?_⟩
  rw [hrun]
  simp

/-- Witness for C10 at the example config with the mkdir exec failing at
its position (index 3). -/
theorem artifact_dir_mkdir_witness :
    run (mkWorld (fun m _ => decide (m ≠ 3)) true none) Location.Local exampleConfig
        "img" 7 ["s"] ["t"] 0 =
      (Event.containerNew Location.Local (runContainerName exampleConfig 7) "img" ::
          Event.push ["s"] "/root" true :: exampleConfig.build.map Event.exec ++
          [Event.exec ["mkdir", "/root/artifacts"]], false) ∧
      Event.pull "/root/artifacts" ["t"] true ∉
        (run (mkWorld (fun m _ => decide (m ≠ 3)) true none) Location.Local exampleConfig
          "img" 7 ["s"] ["t"] 0).1 :=
  artifact_dir_mkdir (mkWorld (fun m _ => decide (m ≠ 3)) true none) Location.Local
    exampleConfig "img" 7 ["s"] ["t"] 0 (by decide) (by decide) (by decide) (by decide)

/-- C6: if every operation except the rename succeeds but the final
rename fails, `build` returns the rename error and the temporary
workspace is left intact: no workspace deletion is attempted, while the
source download, the artifact pull into the workspace, and the manifest
write all happened. -/
theorem rename_failure_keeps_workspace (w : World) (t : TempChoice)
    (a : BuildArguments) (cfg : Config)
    (hparse : w.parse w.configText = some cfg)
    (hok : ∀ (n : Nat) (e : Event), (∀ s d : FsPath, e ≠ Event.rename s d) →
      w.ok n e = true)
    (hren : ∀ (n : Nat) (s d : FsPath), w.ok n (Event.rename s d) = false) :
    (build w t a).2 = Except.error BuildError.renameStage ∧
      (∀ p : FsPath, Event.deleteTemp p ∉ (build w t a).1) ∧
      Event.download a.source_kind a.source_url (t.tempPath ++ ["source"]) ∈
        (build w t a).1 ∧
      Event.pull "/root/artifacts" t.tempPath true ∈ (build w t a).1 ∧
      Event.writeFile (t.tempPath ++ ["manifest.json"])
        (serializeManifest (Manifest.new w.shaBytes w.downloadTime w.artifactsTree)) ∈
        (build w t a).1 := by
  have hex : ∀ (n : Nat) (cmds : List (List String)),
      execCmds w n cmds = (cmds.map Event.exec, true) :=
    fun n cmds => execCmds_all_ok w cmds n (fun i _ => hok _ _ (fun s d => by simp))
  by_cases hie : w.imageExists (locOf a.remote_opt) (buildImageName w.shaStr cfg) = true
  all_goals
    refine ⟨?_, ?_, ?_, ?_, ?_⟩ <;>
      simp [build, prepare, run, hparse, hie, hex, hok, hren]

/-- Witness for C6: a world where only renames fail. -/
theorem rename_failure_keeps_workspace_witness :
    (build (mkWorld
        (fun _ e => match e with | Event.rename _ _ => false | _ => true)
        true (some exampleConfig)) exampleTemp exampleArgs).2 =
        Except.error BuildError.renameStage ∧
      (∀ p : FsPath, Event.deleteTemp p ∉
        (build (mkWorld
          (fun _ e => match e with | Event.rename _ _ => false | _ => true)
          true (some exampleConfig)) exampleTemp exampleArgs).1) ∧
      Event.download exampleArgs.source_kind exampleArgs.source_url
          (exampleTemp.tempPath ++ ["source"]) ∈
        (build (mkWorld
          (fun _ e => match e with | Event.rename _ _ => false | _ => true)
          true (some exampleConfig)) exampleTemp exampleArgs).1 ∧
      Event.pull "/root/artifacts" exampleTemp.tempPath true ∈
        (build (mkWorld
          (fun _ e => match e with | Event.rename _ _ => false | _ => true)
          true (some exampleConfig)) exampleTemp exampleArgs).1 ∧
      Event.writeFile (exampleTemp.tempPath ++ ["manifest.json"])
          (serializeManifest (Manifest.new
            (mkWorld
              (fun _ e => match e with | Event.rename _ _ => false | _ => true)
              true (some exampleConfig)).shaBytes
            (mkWorld
              (fun _ e => match e with | Event.rename _ _ => false | _ => true)
              true (some exampleConfig)).downloadTime
            (mkWorld
              (fun _ e => match e with | Event.rename _ _ => false | _ => true)
              true (some exampleConfig)).artifactsTree)) ∈
        (build (mkWorld
          (fun _ e => match e with | Event.rename _ _ => false | _ => true)
          true (some exampleConfig)) exampleTemp exampleArgs).1 :=
  rename_failure_keeps_workspace
    (mkWorld (fun _ e => match e with | Event.rename _ _ => false | _ => true)
      true (some exampleConfig))
    exampleTemp exampleArgs exampleConfig rfl
    (fun n e hne => by cases e <;> first | rfl | exact absurd rfl (hne _ _))
    (fun n s d => rfl)

/-- C8: in the spec's example scenario (config `x`/`img1` with one
prepare, build, and publish command, no cached environment image, all
operations succeeding, and the publish step leaving a single artifact
`out`), `build` succeeds and its trace is exactly: workspace creation,
source download, config open/read, environment preparation (container
from `img1`, `echo hi`, snapshot, publish), the run stage (container from
the derived image, source push, `make`, artifact-directory creation,
`cp out /root/artifacts/`, artifact pull into the workspace), manifest
generation, the write of `manifest.json` alongside the pulled artifacts
with the single entry mapping `out` to its content digest, sync, and the
final rename onto the output path. -/
theorem example_build_output (w : World) (t : TempChoice) (a : BuildArguments)
    (c : List Nat)
    (hparse : w.parse w.configText = some exampleConfig)
    (hart : w.artifactsTree = [("out", c)])
    (hok : ∀ (n : Nat) (e : Event), w.ok n e = true)
    (hie : w.imageExists (locOf a.remote_opt)
      (buildImageName w.shaStr exampleConfig) = false) :
    build w t a =
      ([Event.mkTempDir t.tempPath,
        Event.download a.source_kind a.source_url (t.tempPath ++ ["source"]),
        Event.openConfig (t.tempPath ++ ["source", a.config_path]),
        Event.readConfig (t.tempPath ++ ["source", a.config_path]),
        Event.containerNew (locOf a.remote_opt)
          (buildImageName w.shaStr exampleConfig) "img1",
        Event.exec ["echo", "hi"],
        Event.snapshot (buildImageName w.shaStr exampleConfig),
        Event.publishImage (buildImageName w.shaStr exampleConfig),
        Event.containerNew (locOf a.remote_opt)
          (runContainerName exampleConfig w.downloadTime)
          (buildImageName w.shaStr exampleConfig),
        Event.push (t.tempPath ++ ["source"]) "/root" true,
        Event.exec ["make"],
        Event.exec ["mkdir", "/root/artifacts"],
        Event.exec ["cp", "out", "/root/artifacts/"],
        Event.pull "/root/artifacts" t.tempPath true,
        Event.genManifest w.downloadTime (t.tempPath ++ ["artifacts"]),
        Event.createFile (t.tempPath ++ ["manifest.json"]),
        Event.writeFile (t.tempPath ++ ["manifest.json"])
          (serializeManifest { time := w.downloadTime, files := [("out", w.shaBytes c)] }),
        Event.syncFile (t.tempPath ++ ["manifest.json"]),
        Event.rename t.tempPath a.output_path],
       Except.ok ()) := by
  have hman : Manifest.new w.shaBytes w.downloadTime w.artifactsTree =
      { time := w.downloadTime, files := [("out", w.shaBytes c)] } := by
    simp [Manifest.new, hart, List.insertionSort, List.orderedInsert]
  simp only [exampleConfig] at hie
  simp [build, prepare, run, execCmds, hparse, hie, hok, hman, exampleConfig]

/-- Witness for C8 at the concrete all-success world. -/
theorem example_build_output_witness :
    build (mkWorld (fun _ _ => true) false (some exampleConfig)) exampleTemp exampleArgs =
      ([Event.mkTempDir exampleTemp.tempPath,
        Event.download exampleArgs.source_kind exampleArgs.source_url
          (exampleTemp.tempPath ++ ["source"]),
        Event.openConfig (exampleTemp.tempPath ++ ["source", exampleArgs.config_path]),
        Event.readConfig (exampleTemp.tempPath ++ ["source", exampleArgs.config_path]),
        Event.containerNew (locOf exampleArgs.remote_opt)
          (buildImageName (mkWorld (fun _ _ => true) false (some exampleConfig)).shaStr
            exampleConfig) "img1",
        Event.exec ["echo", "hi"],
        Event.snapshot (buildImageName
          (mkWorld (fun _ _ => true) false (some exampleConfig)).shaStr exampleConfig),
        Event.publishImage (buildImageName
          (mkWorld (fun _ _ => true) false (some exampleConfig)).shaStr exampleConfig),
        Event.containerNew (locOf exampleArgs.remote_opt)
          (runContainerName exampleConfig
            (mkWorld (fun _ _ => true) false (some exampleConfig)).downloadTime)
          (buildImageName
            (mkWorld (fun _ _ => true) false (some exampleConfig)).shaStr exampleConfig),
        Event.push (exampleTemp.tempPath ++ ["source"]) "/root" true,
        Event.exec ["make"],
        Event.exec ["mkdir", "/root/artifacts"],
        Event.exec ["cp", "out", "/root/artifacts/"],
        Event.pull "/root/artifacts" exampleTemp.tempPath true,
        Event.genManifest
          (mkWorld (fun _ _ => true) false (some exampleConfig)).downloadTime
          (exampleTemp.tempPath ++ ["artifacts"]),
        Event.createFile (exampleTemp.tempPath ++ ["manifest.json"]),
        Event.writeFile (exampleTemp.tempPath ++ ["manifest.json"])
          (serializeManifest (Manifest.mk
            (mkWorld (fun _ _ => true) false (some exampleConfig)).downloadTime
            [("out",
              (mkWorld (fun _ _ => true) false (some exampleConfig)).shaBytes [1, 2])])),
        Event.syncFile (exampleTemp.tempPath ++ ["manifest.json"]),
        Event.rename exampleTemp.tempPath exampleArgs.output_path],
       Except.ok ()) :=
  example_build_output (mkWorld (fun _ _ => true) false (some exampleConfig))
    exampleTemp exampleArgs [1, 2] rfl rfl (fun _ _ => rfl) rfl

/-- C7: manifest generation is deterministic and independent of the
on-disk enumeration order: for a fixed source time, two byte-identical
artifact trees (the same path-to-content association up to enumeration
order, with distinct paths) yield the same manifest, byte-identical
serializations, and the same file-to-digest mapping. -/
theorem manifest_order_independent (h : List Nat → String) (tm : Nat)
    (l1 l2 : List (String × List Nat))
    (hperm : l1.Perm l2)
    (hnd : (l1.map Prod.fst).Nodup) :
    Manifest.new h tm l1 = Manifest.new h tm l2 ∧
      serializeManifest (Manifest.new h tm l1) =
        serializeManifest (Manifest.new h tm l2) ∧
      (Manifest.new h tm l1).files = (Manifest.new h tm l2).files := by
  have hfst : (Prod.fst ∘ (fun p : String × List Nat => (p.1, h p.2))) = Prod.fst :=
    funext fun p => rfl
  have key : List.insertionSort keyLE
        (l1.map (fun p : String × List Nat => (p.1, h p.2))) =
      List.insertionSort keyLE
        (l2.map (fun p : String × List Nat => (p.1, h p.2))) := by
    have hp1 := List.perm_insertionSort keyLE
      (l1.map (fun p : String × List Nat => (p.1, h p.2)))
    have hp2 := List.perm_insertionSort keyLE
      (l2.map (fun p : String × List Nat => (p.1, h p.2)))
    have hpm : List.Perm
        (List.insertionSort keyLE
          (l1.map (fun p : String × List Nat => (p.1, h p.2))))
        (List.insertionSort keyLE
          (l2.map (fun p : String × List Nat => (p.1, h p.2)))) :=
      hp1.trans ((hperm.map _).trans hp2.symm)
    have hs1 := List.sorted_insertionSort keyLE
      (l1.map (fun p : String × List Nat => (p.1, h p.2)))
    have hs2 := List.sorted_insertionSort keyLE
      (l2.map (fun p : String × List Nat => (p.1, h p.2)))
    have hnd1 : ((List.insertionSort keyLE
        (l1.map (fun p : String × List Nat => (p.1, h p.2)))).map Prod.fst).Nodup := by
      apply (List.Perm.nodup_iff (List.Perm.map Prod.fst hp1)).mpr
      rw [List.map_map, hfst]
      exact hnd
    have hnd2 : ((List.insertionSort keyLE
        (l2.map (fun p : String × List Nat => (p.1, h p.2)))).map Prod.fst).Nodup := by
      apply (List.Perm.nodup_iff (List.Perm.map Prod.fst hp2)).mpr
      rw [List.map_map, hfst]
      exact (List.Perm.nodup_iff (List.Perm.map Prod.fst hperm)).mp hnd
    have hstrict : ∀ s : List (String × String), List.Sorted keyLE s →
        (s.map Prod.fst).Nodup → s.Pairwise (fun a b => a.1 < b.1) := by
      intro s hs hn
      have hne : s.Pairwise (fun a b => a.1 ≠ b.1) := List.pairwise_map.mp hn
      exact (hs.and hne).imp (fun hab => lt_of_le_of_ne hab.1 hab.2)
    haveI : IsAntisymm (String × String) (fun a b => a.1 < b.1) :=
      ⟨fun a b hab hba => (lt_asymm hab hba).elim⟩
    exact List.eq_of_perm_of_sorted hpm (hstrict _ hs1 hnd1) (hstrict _ hs2 hnd2)
  have meq : Manifest.new h tm l1 = Manifest.new h tm l2 := by
    simp only [Manifest.new, Manifest.mk.injEq]
    exact ⟨trivial, key⟩
  exact ⟨meq, congrArg serializeManifest meq, congrArg Manifest.files meq⟩

/-- Witness for C7: two enumeration orders of the same two-file tree. -/
theorem manifest_order_independent_witness :
    ([("b", [1]), ("a", [2])] : List (String × List Nat)).Perm
        [("a", [2]), ("b", [1])] ∧
      (([("b", [1]), ("a", [2])] : List (String × List Nat)).map Prod.fst).Nodup ∧
      (Manifest.new (fun _ => "d") 7 [("b", [1]), ("a", [2])] =
          Manifest.new (fun _ => "d") 7 [("a", [2]), ("b", [1])] ∧
        serializeManifest (Manifest.new (fun _ => "d") 7 [("b", [1]), ("a", [2])]) =
          serializeManifest (Manifest.new (fun _ => "d") 7 [("a", [2]), ("b", [1])]) ∧
        (Manifest.new (fun _ => "d") 7 [("b", [1]), ("a", [2])]).files =
          (Manifest.new (fun _ => "d") 7 [("a", [2]), ("b", [1])]).files) :=
  ⟨by decide, by decide,
    manifest_order_independent (fun _ => "d") 7 [("b", [1]), ("a", [2])]
      [("a", [2]), ("b", [1])] (by decide) (by decide)⟩

/-- C9: `build` opens the configuration file only at the path
`source_path.join(config_path)` inside the downloaded source tree, and a
configuration error (open, read, or parse failure) can only be reported
after the source download succeeded. -/
theorem config_read_from_source_tree :
    (∀ (w : World) (t : TempChoice) (a : BuildArguments) (p : FsPath),
      Event.openConfig p ∈ (build w t a).1 →
        p = t.tempPath ++ ["source", a.config_path]) ∧
    (∀ (w : World) (t : TempChoice) (a : BuildArguments),
      ((build w t a).2 = Except.error BuildError.openConfig ∨
        (build w t a).2 = Except.error BuildError.readConfig ∨
        (build w t a).2 = Except.error BuildError.parseConfig) →
      w.ok 1 (Event.download a.source_kind a.source_url
        (t.tempPath ++ ["source"])) = true) := by
  constructor
  · intro w t a p hmem
    have hs := build_events w t a _ hmem
    simpa [okShape] using hs
  · intro w t a herr
    by_cases p1 : w.ok 1 (Event.download a.source_kind a.source_url
        (t.tempPath ++ ["source"])) = true
    · exact p1
    · exfalso
      by_cases p0 : w.ok 0 (Event.mkTempDir t.tempPath) = true
      · have hres : (build w t a).2 = Except.error BuildError.download := by
          simp [build, p0, p1]
        rcases herr with hcase | hcase | hcase <;> rw [hres] at hcase <;> simp at hcase
      · have hres : (build w t a).2 = Except.error BuildError.tempDir := by
          simp [build, p0]
        rcases herr with hcase | hcase | hcase <;> rw [hres] at hcase <;> simp at hcase

/-- Witness for C9: a successful world (the config is opened at
`tmp/buildchain.abc/source/buildchain.json`) and a world whose config
fails to parse after a successful download. -/
theorem config_read_from_source_tree_witness :
    (Event.openConfig (exampleTemp.tempPath ++ ["source", exampleArgs.config_path]) ∈
        (build (mkWorld (fun _ _ => true) true (some exampleConfig))
          exampleTemp exampleArgs).1 ∧
      exampleTemp.tempPath ++ ["source", exampleArgs.config_path] =
        exampleTemp.tempPath ++ ["source", exampleArgs.config_path]) ∧
    ((build (mkWorld (fun _ _ => true) true none) exampleTemp exampleArgs).2 =
        Except.error BuildError.parseConfig ∧
      (mkWorld (fun _ _ => true) true none).ok 1
        (Event.download exampleArgs.source_kind exampleArgs.source_url
          (exampleTemp.tempPath ++ ["source"])) = true) :=
  ⟨⟨by decide,
      config_read_from_source_tree.1 (mkWorld (fun _ _ => true) true (some exampleConfig))
        exampleTemp exampleArgs _ (by decide)⟩,
    ⟨rfl,
      config_read_from_source_tree.2 (mkWorld (fun _ _ => true) true none)
        exampleTemp exampleArgs (Or.inr (Or.inr rfl))⟩⟩

/-- Witness for C3: the first prepare command, the first build command, and
the first publish command each failing at their global positions (5, 6,
and 8 respectively for the example config). -/
theorem abort_on_first_failure_witness :
    build (mkWorld (fun m _ => decide (m ≠ 5)) false (some exampleConfig))
        exampleTemp exampleArgs =
      ([Event.mkTempDir exampleTemp.tempPath,
        Event.download exampleArgs.source_kind exampleArgs.source_url
          (exampleTemp.tempPath ++ ["source"]),
        Event.openConfig (exampleTemp.tempPath ++ ["source", exampleArgs.config_path]),
        Event.readConfig (exampleTemp.tempPath ++ ["source", exampleArgs.config_path]),
        Event.containerNew (locOf exampleArgs.remote_opt)
          (buildImageName (mkWorld (fun m _ => decide (m ≠ 5)) false
            (some exampleConfig)).shaStr exampleConfig) exampleConfig.base]
          ++ (exampleConfig.prepare.take 1).map Event.exec
          ++ [Event.deleteTemp exampleTemp.tempPath],
        Except.error BuildError.prepareStage) ∧
    build (mkWorld (fun m _ => decide (m ≠ 6)) true (some exampleConfig))
        exampleTemp exampleArgs =
      ([Event.mkTempDir exampleTemp.tempPath,
        Event.download exampleArgs.source_kind exampleArgs.source_url
          (exampleTemp.tempPath ++ ["source"]),
        Event.openConfig (exampleTemp.tempPath ++ ["source", exampleArgs.config_path]),
        Event.readConfig (exampleTemp.tempPath ++ ["source", exampleArgs.config_path]),
        Event.containerNew (locOf exampleArgs.remote_opt)
          (runContainerName exampleConfig
            (mkWorld (fun m _ => decide (m ≠ 6)) true (some exampleConfig)).downloadTime)
          (buildImageName (mkWorld (fun m _ => decide (m ≠ 6)) true
            (some exampleConfig)).shaStr exampleConfig),
        Event.push (exampleTemp.tempPath ++ ["source"]) "/root" true]
          ++ (exampleConfig.build.take 1).map Event.exec
          ++ [Event.deleteTemp exampleTemp.tempPath],
        Except.error BuildError.runStage) ∧
    build (mkWorld (fun m _ => decide (m ≠ 8)) true (some exampleConfig))
        exampleTemp exampleArgs =
      ([Event.mkTempDir exampleTemp.tempPath,
        Event.download exampleArgs.source_kind exampleArgs.source_url
          (exampleTemp.tempPath ++ ["source"]),
        Event.openConfig (exampleTemp.tempPath ++ ["source", exampleArgs.config_path]),
        Event.readConfig (exampleTemp.tempPath ++ ["source", exampleArgs.config_path]),
        Event.containerNew (locOf exampleArgs.remote_opt)
          (runContainerName exampleConfig
            (mkWorld (fun m _ => decide (m ≠ 8)) true (some exampleConfig)).downloadTime)
          (buildImageName (mkWorld (fun m _ => decide (m ≠ 8)) true
            (some exampleConfig)).shaStr exampleConfig),
        Event.push (exampleTemp.tempPath ++ ["source"]) "/root" true]
          ++ exampleConfig.build.map Event.exec
          ++ [Event.exec ["mkdir", "/root/artifacts"]]
          ++ (exampleConfig.publish.take 1).map Event.exec
          ++ [Event.deleteTemp exampleTemp.tempPath],
        Except.error BuildError.runStage) :=
  ⟨abort_on_first_failure.1 (mkWorld (fun m _ => decide (m ≠ 5)) false
      (some exampleConfig)) exampleTemp exampleArgs exampleConfig 0
      rfl rfl (by decide) (fun m e hm => decide_eq_true hm) (by decide),
    abort_on_first_failure.2.1 (mkWorld (fun m _ => decide (m ≠ 6)) true
      (some exampleConfig)) exampleTemp exampleArgs exampleConfig 0
      rfl rfl (by decide) (fun m e hm => decide_eq_true hm) (by decide),
    abort_on_first_failure.2.2 (mkWorld (fun m _ => decide (m ≠ 8)) true
      (some exampleConfig)) exampleTemp exampleArgs exampleConfig 0
      rfl rfl (by decide) (fun m e hm => decide_eq_true (by simpa [exampleConfig] using hm))
      (by decide)⟩
